import Mathlib

/-!
Shallow embedding of the core pipeline of `src/transcript_summarizer.py`
(class `TranscriptSummarizer`): the encoding-tolerant reader
(`read_file_content`), the retrying remote summarization client
(`summarize_text`), the output-path resolution inside `process_file`, and
the batch orchestrator (`process_folder`), together with proofs of the
specification's claims about them.

Modelling conventions:
* Python paths (`pathlib.Path`) are lists of path components
  (`List String`); `Path.relative_to`, `Path.parent`, `Path.stem` and
  `Path.suffix` are embedded below following pathlib's semantics.
* The remote model (`self.model.generate_content`) is an external
  collaborator; a per-file client is a function from the call index
  (0-based) to the call's outcome.  `response.text` may be the empty
  string, which the source treats as a failure.
* `time.sleep` calls are recorded in a trace (list of durations, ℚ);
  the float delays 4 and 0.2 of API_MODES are the rationals 4 and 1/5.
* Raised Python exceptions are `Except.error` values; logging calls and
  the token-usage accounting (lines 176-191, a logging side channel that
  never affects control flow) are not modelled.
-/

/-- Python exceptions that the modelled code can raise. -/
inductive PyError
  | valueError (msg : String)
  | typeError (msg : String)
  | unicodeDecodeError (msg : String)
  | exception (msg : String)
  deriving DecidableEq, Repr

/-- Outcome of `open(file_path, encoding=enc).read()` for one candidate
encoding: decoded content, a `UnicodeDecodeError`, or another exception. -/
inductive ReadOutcome
  | ok (content : String)
  | undecodable
  | otherError (msg : String)
  deriving DecidableEq, Repr

/-- The fixed candidate list of `read_file_content` (line 133). -/
def encodings : List String := ["utf-8", "cp949", "euc-kr"]

/-- The loop of `read_file_content` (lines 135-145): try each encoding;
on `UnicodeDecodeError` continue with the next one; any other exception
is re-raised.  When every candidate fails the source executes
`raise UnicodeDecodeError(f"...")` (line 147) with a single argument;
Python's `UnicodeDecodeError` constructor requires five arguments
(encoding, object, start, end, reason), so that statement itself raises
`TypeError: function takes exactly 5 arguments (1 given)` — which is what
the caller observes.  `tryEnc` is the file's behaviour per encoding name. -/
def readLoop (tryEnc : String → ReadOutcome) : List String → Except PyError String
  | [] => Except.error (PyError.typeError "function takes exactly 5 arguments (1 given)")
  | e :: rest =>
    match tryEnc e with
    | ReadOutcome.ok c => Except.ok c
    | ReadOutcome.undecodable => readLoop tryEnc rest
    | ReadOutcome.otherError m => Except.error (PyError.exception m)

/-- `read_file_content` (lines 123-147). -/
def read_file_content (tryEnc : String → ReadOutcome) : Except PyError String :=
  readLoop tryEnc encodings

/-- Outcome of one `self.model.generate_content(...)` call: a response
(whose `.text` may be empty) or a raised exception. -/
inductive CallOutcome
  | success (text : String)
  | failure (msg : String)
  deriving DecidableEq, Repr

/-- The body of one attempt, up to the `except` clause: a non-empty
response text is returned; an empty one raises
`"API 응답이 비어있습니다."` (line 195), and a raised call yields its own
message — both land in the same `except Exception as e` handler. -/
def callResult : CallOutcome → Except String String
  | CallOutcome.success t => if t.isEmpty then Except.error "API 응답이 비어있습니다." else Except.ok t
  | CallOutcome.failure m => Except.error m

/-- How `summarize_text` ends: `return response.text`, a raised
exception, or Python's implicit `return None` when the `for` loop body
never runs (only possible when `max_retries = 0`). -/
inductive SummarizeOutcome
  | returned (text : String)
  | raised (msg : String)
  | noneReturned
  deriving DecidableEq, Repr

/-- Observable behaviour of one `summarize_text` run: its outcome, how
many `generate_content` calls were made, and the `time.sleep` durations
in order. -/
structure SummarizeTrace where
  outcome : SummarizeOutcome
  calls : Nat
  sleeps : List ℚ
  deriving DecidableEq, Repr

/-- The message of the final failure (line 205). -/
def finalFailureMsg (maxRetries : Nat) (m : String) : String :=
  "API 요청이 " ++ toString maxRetries ++ "회 시도 후 실패했습니다: " ++ m

/-- The `for attempt in range(max_retries)` loop of `summarize_text`
(lines 166-205), recursing on the number of remaining iterations.
Before each call on attempts after the first, the mode's delay is slept
(lines 169-172); on a failure with attempts remaining the backoff
`(2 ** attempt) + delay_seconds` is slept (lines 199-203); on the final
attempt's failure the wrapping exception is raised (line 205). -/
def summarizeGo (client : Nat → CallOutcome) (d : ℚ) (maxRetries : Nat) :
    Nat → Nat → SummarizeTrace
  | 0, _ => ⟨SummarizeOutcome.noneReturned, 0, []⟩
  | rem + 1, a =>
    let pre : List ℚ := if 0 < a then [d] else []
    match callResult (client a) with
    | Except.ok t => ⟨SummarizeOutcome.returned t, 1, pre⟩
    | Except.error m =>
      if a < maxRetries - 1 then
        let nxt := summarizeGo client d maxRetries rem (a + 1)
        ⟨nxt.outcome, nxt.calls + 1, pre ++ ((2 : ℚ) ^ a + d) :: nxt.sleeps⟩
      else
        ⟨SummarizeOutcome.raised (finalFailureMsg maxRetries m), 1, pre⟩

/-- `summarize_text` (lines 149-205).  In the source `max_retries`
defaults to 3 (line 149); the default is made explicit at the call site
in `process_file` below. -/
def summarize_text (client : Nat → CallOutcome) (d : ℚ) (maxRetries : Nat) : SummarizeTrace :=
  summarizeGo client d maxRetries maxRetries 0

/-- Drop a root's components from the front of a path; `none` models the
`ValueError` that `Path.relative_to` raises when the root is not a
prefix of the path. -/
def dropRoot : List String → List String → Option (List String)
  | [], rest => some rest
  | _ :: _, [] => none
  | r :: rs, c :: cs => if r == c then dropRoot rs cs else none

/-- `input_file.relative_to(input_folder)` (line 242). -/
def relative_to (file root : List String) : Option (List String) :=
  dropRoot root file

/-- The final component of a path (`Path.name`). -/
def fileName (p : List String) : String :=
  p.getLast?.getD ""

/-- pathlib's split of a file name into `stem` and `suffix`: the suffix
starts at the last dot provided that dot is neither the first nor the
last character of the name; otherwise the suffix is empty and the stem
is the whole name. -/
def pySplitExt (name : String) : String × String :=
  let cs := name.toList
  match cs.reverse.findIdx? (fun c => c == '.') with
  | none => (name, "")
  | some j =>
    let i := cs.length - 1 - j
    if 0 < i ∧ i < cs.length - 1 then (String.mk (cs.take i), String.mk (cs.drop i))
    else (name, "")

/-- `Path.stem`. -/
def pyStem (name : String) : String := (pySplitExt name).1

/-- `Path.suffix`. -/
def pySuffix (name : String) : String := (pySplitExt name).2

/-- Python's `str.replace(old, new)` for single-character arguments:
every occurrence of the character is replaced. -/
def pyReplaceChar (s : String) (old new : Char) : String :=
  String.mk (s.toList.map (fun c => if c == old then new else c))

/-- The model-name sanitization of line 245: the mode configuration
model name with every hyphen replaced by an underscore, then every dot
replaced by an underscore. -/
def model_name_clean (modelName : String) : String :=
  pyReplaceChar (pyReplaceChar modelName '-' '_') '.' '_'

/-- The output path computed by `process_file` (lines 242-248):
`output_folder / relative_path.parent / f"{stem}_summary_{clean}{suffix}"`.
`Path.parent` of a multi-component relative path drops the last
component; for a single-component one it is the dot path, whose part
list is empty — both are `List.dropLast`.  `none` when `relative_to`
raises. -/
def resolve_output_path (inputFile inputFolder outputFolder : List String)
    (modelName : String) : Option (List String) :=
  (relative_to inputFile inputFolder).map (fun rel =>
    outputFolder ++ rel.dropLast ++
      [pyStem (fileName inputFile) ++ "_summary_" ++ model_name_clean modelName ++
        pySuffix (fileName inputFile)])

/-- Modelled from the spec (§4.3), for comparison with the source's
resolver: "sanitize `modelIdentifier` by replacing characters unsafe
for filenames (hyphens, dots) with underscores". -/
def spec_sanitize (modelId : String) : String :=
  String.mk (modelId.toList.map (fun c => if c == '-' || c == '.' then '_' else c))

/-- Modelled from the spec (§4.3), for comparison with the source's
resolver: "construct filename as
`{stem}_summary_{sanitizedModel}{originalExtension}`; final path =
`outputRoot / relativePath.parentDirs / filename`". -/
def spec_output_path (inputFile inputRoot outputRoot : List String)
    (modelId : String) : Option (List String) :=
  (relative_to inputFile inputRoot).map (fun rel =>
    outputRoot ++ rel.dropLast ++
      [pyStem (fileName inputFile) ++ "_summary_" ++ spec_sanitize modelId ++
        pySuffix (fileName inputFile)])

/-- One entry of `API_MODES` (lines 10-23). -/
structure ModeConfig where
  model_name : String
  delay_seconds : ℚ
  env_key_name : String
  deriving DecidableEq, Repr

/-- The free entry of `API_MODES`. -/
def freeMode : ModeConfig :=
  ⟨"gemini-1.5-flash-latest", 4, "GOOGLE_API_KEY_FREE"⟩

/-- The paid entry of `API_MODES`; the float delay 0.2 is the rational 1/5. -/
def paidMode : ModeConfig :=
  ⟨"gemini-2.5-flash-preview-05-20", 1 / 5, "GOOGLE_API_KEY_PAID"⟩

/-- The per-run state of a `TranscriptSummarizer` that the pipeline
reads: the selected mode's configuration and the optional custom
prompt.  The class carries no retry-count setting of any kind
(`__init__`, lines 28-51). -/
structure Config where
  mode_config : ModeConfig
  custom_prompt : Option String

/-- One discovered input file together with the behaviour of the
external world on it: what `open(..., encoding=e).read()` does per
candidate encoding, what each `generate_content` call does (indexed by
call number), and whether `save_summary` succeeds. -/
structure FileSpec where
  path : List String
  encOutcome : String → ReadOutcome
  callOutcome : Nat → CallOutcome
  saveOk : Bool

/-- Observable result of one `process_file` run: the returned Bool, the
number of `generate_content` calls made, and the (path, text) written
when the file succeeded. -/
structure FileResult where
  ok : Bool
  apiCalls : Nat
  written : Option (List String × String)
  deriving DecidableEq, Repr

/-- The default of the `max_retries` parameter of `summarize_text`
(line 149), the only value that ever reaches it: `process_file` calls
`self.summarize_text(content)` with no second argument (line 254). -/
def defaultMaxRetries : Nat := 3

/-- `process_file` (lines 228-263).  The whole body is wrapped in
`try/except Exception`: a failure at any step — `relative_to`, the
read, exhaustion of retries in `summarize_text`, or the save — is
caught and turns into `return False` (lines 261-263).  The output path
is computed before the read, exactly as in the source. -/
def process_file (cfg : Config) (f : FileSpec)
    (inputFolder outputFolder : List String) : FileResult :=
  match resolve_output_path f.path inputFolder outputFolder cfg.mode_config.model_name with
  | none => ⟨false, 0, none⟩
  | some outFile =>
    match read_file_content f.encOutcome with
    | Except.error _ => ⟨false, 0, none⟩
    | Except.ok _content =>
      let s := summarize_text f.callOutcome cfg.mode_config.delay_seconds defaultMaxRetries
      match s.outcome with
      | SummarizeOutcome.returned txt =>
        if f.saveOk then ⟨true, s.calls, some (outFile, txt)⟩ else ⟨false, s.calls, none⟩
      | _ => ⟨false, s.calls, none⟩

/-- The result dict of `process_folder`.  Every field except `success`
is a key that some branches leave out of the returned dict, hence the
`Option`s: the dependency-failure branch (line 278) has only `success`
and `error`; the empty-batch branch (line 295) has only `success`,
`processed` and `failed` — no `total`; the full branch (lines 309-314)
has `success`, `total`, `processed` and `failed`. -/
structure Report where
  success : Bool
  error : Option String
  total : Option Nat
  processed : Option Nat
  failed : Option Nat
  deriving DecidableEq, Repr

/-- Observable side effects of `process_folder`, in order: the
dependency check (line 277), the creation of the output folder
(line 288), the file-discovery walk (line 291), and the start of each
file's processing (the progress print of line 302). -/
inductive Event
  | checkDeps
  | makeOutputDir
  | discover
  | fileStart (name : String)
  deriving DecidableEq, Repr

/-- Path rendering used in error messages. -/
def joinPath (p : List String) : String :=
  String.intercalate "/" p

/-- `process_folder` (lines 265-321).  `depsOk` is the result of
`check_dependencies()`, `inputExists`/`inputIsDir` the results of
`input_folder.exists()`/`is_dir()`, and `files` the list that
`find_txt_files` discovers, in enumeration order.  Raised `ValueError`s
are `Except.error`; the second component is the event trace. -/
def process_folder (cfg : Config) (depsOk inputExists inputIsDir : Bool)
    (files : List FileSpec) (inputFolder outputFolder : List String) :
    Except PyError Report × List Event :=
  if depsOk = false then
    (Except.ok ⟨false, some "필수 라이브러리가 설치되지 않았습니다.", none, none, none⟩,
     [Event.checkDeps])
  else if inputExists = false then
    (Except.error (PyError.valueError ("입력 폴더가 존재하지 않습니다: " ++ joinPath inputFolder)),
     [Event.checkDeps])
  else if inputIsDir = false then
    (Except.error (PyError.valueError ("입력 경로가 폴더가 아닙니다: " ++ joinPath inputFolder)),
     [Event.checkDeps])
  else if files.isEmpty then
    (Except.ok ⟨true, none, none, some 0, some 0⟩,
     [Event.checkDeps, Event.makeOutputDir, Event.discover])
  else
    let results := files.map (fun f => process_file cfg f inputFolder outputFolder)
    (Except.ok ⟨true, none, some files.length,
        some (results.countP (fun r => r.ok)),
        some (results.countP (fun r => !r.ok))⟩,
     [Event.checkDeps, Event.makeOutputDir, Event.discover] ++
       files.map (fun f => Event.fileStart (fileName f.path)))

/-- The delay slept before the call of attempt `a` (lines 169-172):
nothing on the first attempt, the mode's delay afterwards. -/
def preSleep (a : Nat) (d : ℚ) : List ℚ :=
  if 0 < a then [d] else []

/-- Sleep schedule produced by `k` consecutive failing attempts
starting at attempt index `a`: after failing attempt `a + i` the loop
sleeps the backoff `2 ^ (a + i) + d` (line 201), then the pre-call
delay `d` of the following attempt (line 170). -/
def failTrace (d : ℚ) : Nat → Nat → List ℚ
  | _, 0 => []
  | a, k + 1 => ((2 : ℚ) ^ a + d) :: d :: failTrace d (a + 1) k

/-- The message carried by the failure of one attempt: the raised
call's own message, or the empty-response message. -/
def lastErrMsg (c : CallOutcome) : String :=
  match callResult c with
  | Except.ok _ => ""
  | Except.error m => m

/-- Concrete run configuration used to instantiate the theorems: the
free API mode with the default prompt. -/
def cfgFree : Config := ⟨freeMode, none⟩

/-- Concrete input file whose whole pipeline succeeds. -/
def sampleOkFile : FileSpec :=
  ⟨["in", "a.txt"], fun _ => ReadOutcome.ok "hello",
    fun _ => CallOutcome.success "summary", true⟩

/-- Concrete input file that no candidate encoding can decode. -/
def sampleBadFile : FileSpec :=
  ⟨["in", "b.txt"], fun _ => ReadOutcome.undecodable,
    fun _ => CallOutcome.success "summary", true⟩

/-- Concrete input file that reads fine but whose remote calls all fail. -/
def sampleBadCallFile : FileSpec :=
  ⟨["in", "c.txt"], fun _ => ReadOutcome.ok "text",
    fun _ => CallOutcome.failure "boom", true⟩

/-- Concrete client failing its first two calls, then succeeding. -/
def failThenOkClient : Nat → CallOutcome :=
  fun i => if i < 2 then CallOutcome.failure "boom" else CallOutcome.success "ok"

/-- Concrete client whose calls all fail. -/
def alwaysFailClient : Nat → CallOutcome :=
  fun _ => CallOutcome.failure "boom"

/-- A failing attempt's `callResult` is the error carrying its message. -/
theorem callResult_error_of_not_isOk (c : CallOutcome)
    (h : (callResult c).isOk = false) :
    callResult c = Except.error (lastErrMsg c) := by
  cases hc : callResult c with
  | ok t => rw [hc] at h; simp [Except.isOk, Except.toBool] at h
  | error m => simp [lastErrMsg, hc]

/-- `summarize_text` never makes more calls than it has iterations left. -/
theorem summarizeGo_calls_le (client : Nat → CallOutcome) (d : ℚ) (M : Nat) :
    ∀ rem a, (summarizeGo client d M rem a).calls ≤ rem := by
  intro rem
  induction rem with
  | zero => intro a; simp [summarizeGo]
  | succ r ih =>
    intro a
    cases hc : callResult (client a) with
    | ok t => simp [summarizeGo, hc]
    | error m =>
      simp only [summarizeGo, hc]
      split
      · simpa using Nat.succ_le_succ (ih (a + 1))
      · simp

/-- If the first `k` attempts starting at `a` fail and attempt `a + k`
succeeds with text `t`, the loop returns `t` after `k + 1` calls having
slept the pre-call delay of attempt `a` followed by the backoff
schedule of the `k` failures. -/
theorem summarizeGo_success (client : Nat → CallOutcome) (d : ℚ) (M : Nat) :
    ∀ (k a rem : Nat), a + rem = M → k < rem →
    (∀ i, i < k → (callResult (client (a + i))).isOk = false) →
    ∀ t, callResult (client (a + k)) = Except.ok t →
    summarizeGo client d M rem a =
      ⟨SummarizeOutcome.returned t, k + 1, preSleep a d ++ failTrace d a k⟩ := by
  intro k
  induction k with
  | zero =>
    intro a rem hsum hk hfail t hok
    obtain ⟨r, rfl⟩ : ∃ r, rem = r + 1 := ⟨rem - 1, by omega⟩
    rw [show a + 0 = a from rfl] at hok
    simp [summarizeGo, hok, failTrace, preSleep]
  | succ k ih =>
    intro a rem hsum hk hfail t hok
    obtain ⟨r, rfl⟩ : ∃ r, rem = r + 1 := ⟨rem - 1, by omega⟩
    have herr : callResult (client a) = Except.error (lastErrMsg (client a)) := by
      have := hfail 0 (Nat.succ_pos k)
      rw [show a + 0 = a from rfl] at this
      exact callResult_error_of_not_isOk _ this
    have hlt : a < M - 1 := by omega
    have hfail' : ∀ i, i < k → (callResult (client (a + 1 + i))).isOk = false := by
      intro i hi
      have := hfail (i + 1) (by omega)
      rwa [show a + (i + 1) = a + 1 + i by omega] at this
    have hok' : callResult (client (a + 1 + k)) = Except.ok t := by
      rwa [show a + (k + 1) = a + 1 + k by omega] at hok
    have hrec := ih (a + 1) r (by omega) (by omega) hfail' t hok'
    simp only [summarizeGo, herr, if_pos hlt, hrec]
    simp [preSleep, failTrace]

/-- If every attempt from `a` on fails, the loop raises the wrapping
exception built from the last attempt's message, after making one call
per remaining iteration and sleeping the full backoff schedule. -/
theorem summarizeGo_allFail (client : Nat → CallOutcome) (d : ℚ) (M : Nat) :
    ∀ (rem a : Nat), a + rem = M → 0 < rem →
    (∀ i, a ≤ i → i < M → (callResult (client i)).isOk = false) →
    summarizeGo client d M rem a =
      ⟨SummarizeOutcome.raised (finalFailureMsg M (lastErrMsg (client (M - 1)))), rem,
        preSleep a d ++ failTrace d a (rem - 1)⟩ := by
  intro rem
  induction rem with
  | zero => intro a _ h; omega
  | succ r ih =>
    intro a hsum _ hfail
    have herr : callResult (client a) = Except.error (lastErrMsg (client a)) := by
      exact callResult_error_of_not_isOk _ (hfail a (Nat.le_refl a) (by omega))
    cases r with
    | zero =>
      have ha : a = M - 1 := by omega
      subst ha
      have hnlt : ¬ M - 1 < M - 1 := by omega
      simp [summarizeGo, herr, if_neg hnlt, preSleep, failTrace]
    | succ r' =>
      have hlt : a < M - 1 := by omega
      have hrec := ih (a + 1) (by omega) (Nat.succ_pos r')
        (fun i hi hi' => hfail i (by omega) hi')
      conv_lhs => rw [summarizeGo]
      simp only [herr, if_pos hlt]
      rw [hrec]
      simp [preSleep, failTrace]

/-- A nonempty list's `isEmpty` is `false`. -/
theorem isEmpty_false_of_ne_nil {α : Type _} {l : List α} (h : l ≠ []) :
    l.isEmpty = false := by
  cases l with
  | nil => exact absurd rfl h
  | cons a t => rfl

/-- Splitting a list by a Boolean predicate accounts for every element. -/
theorem countP_add_countP_not {α : Type _} (p : α → Bool) (l : List α) :
    l.countP p + l.countP (fun a => !p a) = l.length := by
  induction l with
  | nil => simp
  | cons x xs ih => by_cases h : p x = true <;> simp [List.countP_cons, h] <;> omega

/-- The backoff schedule of `k` failures starting at attempt `a`, as a
flat map over the failing attempt indices. -/
theorem failTrace_eq_flatMap (d : ℚ) :
    ∀ (k a : Nat), failTrace d a k =
      (List.range k).flatMap (fun i => [(2 : ℚ) ^ (a + i) + d, d]) := by
  intro k
  induction k with
  | zero => intro a; simp [failTrace]
  | succ k ih =>
    intro a
    rw [List.range_succ_eq_map, List.flatMap_cons, List.flatMap_map]
    have hstep : failTrace d a (k + 1) = ((2 : ℚ) ^ a + d) :: d :: failTrace d (a + 1) k := rfl
    rw [hstep, ih (a + 1)]
    have harg : (fun i => [(2 : ℚ) ^ (a + Nat.succ i) + d, d]) =
        (fun i => [(2 : ℚ) ^ (a + 1 + i) + d, d]) := by
      funext i
      rw [show a + Nat.succ i = a + 1 + i by omega]
    rw [harg]
    simp

/-- C1: for every completed batch in which at least one .txt file is
discovered, `process_folder` returns a report whose `total` is the
number of discovered files and whose `processed` and `failed` counts
split the files exactly, so `processed + failed = total`. -/
theorem c1_batch_count_invariant (cfg : Config) (files : List FileSpec)
    (inF outF : List String) (hne : files ≠ []) :
    (process_folder cfg true true true files inF outF).1 =
      Except.ok ⟨true, none, some files.length,
        some (files.countP (fun fl => (process_file cfg fl inF outF).ok)),
        some (files.countP (fun fl => !(process_file cfg fl inF outF).ok))⟩ ∧
    files.countP (fun fl => (process_file cfg fl inF outF).ok) +
      files.countP (fun fl => !(process_file cfg fl inF outF).ok) = files.length := by
  have h0 := isEmpty_false_of_ne_nil hne
  constructor
  · simp [process_folder, h0, List.countP_map, Function.comp]
    exact ⟨rfl, rfl⟩
  · exact countP_add_countP_not (fun fl => (process_file cfg fl inF outF).ok) files

/-- Witness for C1 at a concrete two-file batch with one success and
one failure. -/
theorem c1_batch_count_invariant_witness :
    (process_folder cfgFree true true true [sampleOkFile, sampleBadFile] ["in"] ["out"]).1 =
      Except.ok ⟨true, none, some 2, some 1, some 1⟩ ∧ (1 : Nat) + 1 = 2 := by
  have h := c1_batch_count_invariant cfgFree [sampleOkFile, sampleBadFile] ["in"] ["out"]
    (List.cons_ne_nil _ _)
  exact ⟨h.1.trans (by rfl), by norm_num⟩

/-- C2: on an input root with zero .txt files, `process_folder` does
return success with zero `processed` and `failed` counts — but the dict
it builds on that branch (line 295) has no `total` key at all (`none`
here), where the claim requires `total = 0`; `main.py` line 212 reads
the total key of the result whenever `success` is true, so this branch makes the
caller raise `KeyError`. -/
theorem c2_empty_batch_report :
    (process_folder cfgFree true true true [] ["in"] ["out"]).1 =
      Except.ok ⟨true, none, none, some 0, some 0⟩ := rfl

/-- C5: per-file failures are isolated — whatever each file's read,
summarize and save behaviours are, the batch report is built with one
count per file (failures counted as failed) and the event trace shows
every discovered file being processed: no per-file failure aborts the
batch. -/
theorem c5_per_file_failure_isolation (cfg : Config) (files : List FileSpec)
    (inF outF : List String) (hne : files ≠ []) :
    (process_folder cfg true true true files inF outF).1 =
      Except.ok ⟨true, none, some files.length,
        some (files.countP (fun fl => (process_file cfg fl inF outF).ok)),
        some (files.countP (fun fl => !(process_file cfg fl inF outF).ok))⟩ ∧
    (process_folder cfg true true true files inF outF).2 =
      [Event.checkDeps, Event.makeOutputDir, Event.discover] ++
        files.map (fun fl => Event.fileStart (fileName fl.path)) := by
  have h0 := isEmpty_false_of_ne_nil hne
  constructor
  · simp [process_folder, h0, List.countP_map, Function.comp]
    exact ⟨rfl, rfl⟩
  · simp [process_folder, h0]

/-- Witness for C5: a batch of one failing and one succeeding file is
fully processed, the failure counted, the success kept. -/
theorem c5_per_file_failure_isolation_witness :
    (process_folder cfgFree true true true [sampleBadFile, sampleOkFile] ["in"] ["out"]).1 =
      Except.ok ⟨true, none, some 2, some 1, some 1⟩ ∧
    (process_folder cfgFree true true true [sampleBadFile, sampleOkFile] ["in"] ["out"]).2 =
      [Event.checkDeps, Event.makeOutputDir, Event.discover,
        Event.fileStart "b.txt", Event.fileStart "a.txt"] := by
  have h := c5_per_file_failure_isolation cfgFree [sampleBadFile, sampleOkFile] ["in"] ["out"]
    (List.cons_ne_nil _ _)
  exact ⟨h.1.trans (by rfl), h.2.trans (by rfl)⟩

/-- C8: with dependencies available, an input root that does not exist
or is not a directory makes `process_folder` raise the configuration
`ValueError` (the spec's `ConfigurationError`) and the event trace stops
at the dependency check: no discovery, no per-file processing. -/
theorem c8_invalid_root_preflight (cfg : Config) (files : List FileSpec)
    (inF outF : List String) (hex hdir : Bool)
    (h : hex = false ∨ hdir = false) :
    (∃ msg, (process_folder cfg true hex hdir files inF outF).1 =
      Except.error (PyError.valueError msg)) ∧
    (process_folder cfg true hex hdir files inF outF).2 = [Event.checkDeps] := by
  rcases h with h | h
  · subst h
    exact ⟨⟨_, rfl⟩, rfl⟩
  · subst h
    cases hex with
    | false => exact ⟨⟨_, rfl⟩, rfl⟩
    | true => exact ⟨⟨_, rfl⟩, rfl⟩

/-- Witness for C8 at a concrete non-existent input root. -/
theorem c8_invalid_root_preflight_witness :
    (process_folder cfgFree true false true [sampleOkFile] ["missing"] ["out"]).1 =
      Except.error (PyError.valueError "입력 폴더가 존재하지 않습니다: missing") ∧
    (process_folder cfgFree true false true [sampleOkFile] ["missing"] ["out"]).2 =
      [Event.checkDeps] := by
  have h := c8_invalid_root_preflight cfgFree [sampleOkFile] ["missing"] ["out"] false true
    (Or.inl rfl)
  exact ⟨rfl, h.2⟩

/-- C9: a batch that passes pre-flight validation and discovers at
least one file reports `success = true` even when every file fails:
`processed = 0` and `failed = total`. -/
theorem c9_success_despite_all_failures (cfg : Config) (files : List FileSpec)
    (inF outF : List String) (hne : files ≠ [])
    (hfail : ∀ fl ∈ files, (process_file cfg fl inF outF).ok = false) :
    (process_folder cfg true true true files inF outF).1 =
      Except.ok ⟨true, none, some files.length, some 0, some files.length⟩ := by
  have h0 := isEmpty_false_of_ne_nil hne
  have hz : files.countP (fun fl => (process_file cfg fl inF outF).ok) = 0 :=
    List.countP_eq_zero.mpr (fun fl hfl => by simp [hfail fl hfl])
  have hl : files.countP (fun fl => !(process_file cfg fl inF outF).ok) = files.length :=
    List.countP_eq_length.mpr (fun fl hfl => by simp [hfail fl hfl])
  have hrep : (process_folder cfg true true true files inF outF).1 =
      Except.ok ⟨true, none, some files.length,
        some (files.countP (fun fl => (process_file cfg fl inF outF).ok)),
        some (files.countP (fun fl => !(process_file cfg fl inF outF).ok))⟩ := by
    simp [process_folder, h0, List.countP_map, Function.comp]
    exact ⟨rfl, rfl⟩
  rw [hrep, hz, hl]

/-- Witness for C9: a one-file batch whose only file fails still
reports success. -/
theorem c9_success_despite_all_failures_witness :
    (process_folder cfgFree true true true [sampleBadFile] ["in"] ["out"]).1 =
      Except.ok ⟨true, none, some 1, some 0, some 1⟩ := by
  have h := c9_success_despite_all_failures cfgFree [sampleBadFile] ["in"] ["out"]
    (List.cons_ne_nil _ _) (by intro fl hfl; rw [List.mem_singleton.mp hfl]; rfl)
  exact h

/-- C3: a client failing its first `k < maxRetries` calls and then
returning non-empty text makes `summarize_text` return that text after
exactly `k + 1` calls; a client whose calls all fail makes it raise,
after exactly `maxRetries` calls, the exception wrapping the attempt
count and the last failure's message. -/
theorem c3_retry_semantics (client : Nat → CallOutcome) (d : ℚ) (M k : Nat) (t : String) :
    (k < M → (∀ i, i < k → (callResult (client i)).isOk = false) →
      callResult (client k) = Except.ok t →
      (summarize_text client d M).outcome = SummarizeOutcome.returned t ∧
        (summarize_text client d M).calls = k + 1) ∧
    (0 < M → (∀ i, i < M → (callResult (client i)).isOk = false) →
      (summarize_text client d M).outcome =
          SummarizeOutcome.raised (finalFailureMsg M (lastErrMsg (client (M - 1)))) ∧
        (summarize_text client d M).calls = M) := by
  constructor
  · intro hk hfail hok
    have h := summarizeGo_success client d M k 0 M (by omega) hk
      (fun i hi => by simpa using hfail i hi) t (by simpa using hok)
    rw [show summarize_text client d M = summarizeGo client d M M 0 from rfl, h]
    exact ⟨rfl, rfl⟩
  · intro hM hfail
    have h := summarizeGo_allFail client d M M 0 (by omega) hM
      (fun i _ hi => hfail i hi)
    rw [show summarize_text client d M = summarizeGo client d M M 0 from rfl, h]
    exact ⟨rfl, rfl⟩

/-- Witness for C3: with `maxRetries = 3`, two failures then a success
return after three calls, and three failures raise the wrapping error
after three calls. -/
theorem c3_retry_semantics_witness :
    ((summarize_text failThenOkClient 4 3).outcome = SummarizeOutcome.returned "ok" ∧
      (summarize_text failThenOkClient 4 3).calls = 3) ∧
    ((summarize_text alwaysFailClient 4 3).outcome =
        SummarizeOutcome.raised (finalFailureMsg 3 "boom") ∧
      (summarize_text alwaysFailClient 4 3).calls = 3) := by
  have h1 := (c3_retry_semantics failThenOkClient 4 3 2 "ok").1 (by omega)
    (fun i hi => by interval_cases i <;> rfl) rfl
  have h2 := (c3_retry_semantics alwaysFailClient 4 3 0 "ok").2 (by omega)
    (fun i _ => rfl)
  exact ⟨h1, h2⟩

/-- C4: when every candidate encoding fails, `read_file_content` does
not raise the intended decoding error naming the file and the encoding
list: the single-argument `raise UnicodeDecodeError(...)` of line 147
itself raises `TypeError`, which is what the caller observes. -/
theorem c4_all_encodings_fail_typeerror (tryEnc : String → ReadOutcome)
    (h : ∀ e, tryEnc e = ReadOutcome.undecodable) :
    read_file_content tryEnc =
      Except.error (PyError.typeError "function takes exactly 5 arguments (1 given)") := by
  simp [read_file_content, encodings, readLoop, h]

/-- Witness for C4 at a concretely undecodable file (e.g. one whose
contents are the single byte 0x81, invalid in utf-8, cp949 and euc-kr). -/
theorem c4_all_encodings_fail_typeerror_witness :
    read_file_content (fun _ => ReadOutcome.undecodable) =
      Except.error (PyError.typeError "function takes exactly 5 arguments (1 given)") :=
  c4_all_encodings_fail_typeerror (fun _ => ReadOutcome.undecodable) (fun _ => rfl)

/-- C6: on each failing attempt `i` (with attempts remaining) the loop
sleeps `2 ^ i + perModeDelaySeconds` before the next attempt, and
additionally sleeps `perModeDelaySeconds` before the call on every
attempt after the first: the whole sleep trace of a run that fails its
first `k` attempts is the interleaving `[2^0 + d, d, …, 2^(k-1) + d, d]`,
both when attempt `k` succeeds and when the run fails all `maxRetries`
attempts (there `k = maxRetries - 1`, the last failure sleeping
nothing). -/
theorem c6_backoff_schedule (client : Nat → CallOutcome) (d : ℚ) (M k : Nat) (t : String) :
    (k < M → (∀ i, i < k → (callResult (client i)).isOk = false) →
      callResult (client k) = Except.ok t →
      (summarize_text client d M).sleeps =
        (List.range k).flatMap (fun i => [(2 : ℚ) ^ i + d, d])) ∧
    (0 < M → (∀ i, i < M → (callResult (client i)).isOk = false) →
      (summarize_text client d M).sleeps =
        (List.range (M - 1)).flatMap (fun i => [(2 : ℚ) ^ i + d, d])) := by
  constructor
  · intro hk hfail hok
    have h := summarizeGo_success client d M k 0 M (by omega) hk
      (fun i hi => by simpa using hfail i hi) t (by simpa using hok)
    rw [show summarize_text client d M = summarizeGo client d M M 0 from rfl, h]
    simp [preSleep, failTrace_eq_flatMap]
  · intro hM hfail
    have h := summarizeGo_allFail client d M M 0 (by omega) hM
      (fun i _ hi => hfail i hi)
    rw [show summarize_text client d M = summarizeGo client d M M 0 from rfl, h]
    simp [preSleep, failTrace_eq_flatMap]

/-- Witness for C6: two failures with the free mode's delay 4 sleep
`[2^0 + 4, 4, 2^1 + 4, 4] = [5, 4, 6, 4]`, identically for the
fail-then-succeed run and the all-fail run at `maxRetries = 3`. -/
theorem c6_backoff_schedule_witness :
    (summarize_text failThenOkClient 4 3).sleeps = [5, 4, 6, 4] ∧
    (summarize_text alwaysFailClient 4 3).sleeps = [5, 4, 6, 4] := by
  have h1 := (c6_backoff_schedule failThenOkClient 4 3 2 "ok").1 (by omega)
    (fun i hi => by interval_cases i <;> rfl) rfl
  have h2 := (c6_backoff_schedule alwaysFailClient 4 3 0 "ok").2 (by omega)
    (fun i _ => rfl)
  constructor
  · rw [h1, show List.range 2 = [0, 1] from rfl]
    simp
    norm_num
  · rw [h2, show (3 : Nat) - 1 = 2 from rfl, show List.range 2 = [0, 1] from rfl]
    simp
    norm_num

/-- The source's two chained single-character replacements equal the
spec's one-pass sanitization: hyphens and dots become underscores. -/
theorem model_name_clean_eq_spec_sanitize (m : String) :
    model_name_clean m = spec_sanitize m := by
  have h : model_name_clean m =
      String.mk ((m.toList.map (fun c => if c == '-' then '_' else c)).map
        (fun c => if c == '.' then '_' else c)) := rfl
  rw [h, List.map_map, spec_sanitize]
  congr 1
  congr 1
  funext c
  by_cases h1 : c = '-'
  · subst h1; rfl
  · by_cases h2 : c = '.'
    · subst h2; rfl
    · have b1 : (c == '-') = false := by simp [h1]
      have b2 : (c == '.') = false := by simp [h2]
      simp [Function.comp, b1, b2]

/-- C7: the output path the source computes coincides with the spec's
formula `outputRoot / relativePath.parentDirs /
{stem}_summary_{sanitizedModel}{originalExtension}` for every input
(a pure function of the four inputs, hence idempotent), and whenever
`process_file` writes a file it writes it at exactly that resolved
path, independently of the summary content. -/
theorem c7_output_path_spec_refinement (inputFile inputRoot outputRoot : List String)
    (modelId : String) (cfg : Config) (fl : FileSpec) (inF outF : List String) :
    resolve_output_path inputFile inputRoot outputRoot modelId =
      spec_output_path inputFile inputRoot outputRoot modelId ∧
    (∀ p t, (process_file cfg fl inF outF).written = some (p, t) →
      resolve_output_path fl.path inF outF cfg.mode_config.model_name = some p) := by
  constructor
  · unfold resolve_output_path spec_output_path
    rw [model_name_clean_eq_spec_sanitize]
  · intro p t hw
    unfold process_file at hw
    cases hr : resolve_output_path fl.path inF outF cfg.mode_config.model_name with
    | none => simp only [hr] at hw; exact absurd hw (by simp)
    | some op =>
      simp only [hr] at hw
      cases hc : read_file_content fl.encOutcome with
      | error e => simp only [hc] at hw; exact absurd hw (by simp)
      | ok c =>
        simp only [hc] at hw
        cases ho : (summarize_text fl.callOutcome cfg.mode_config.delay_seconds
            defaultMaxRetries).outcome with
        | returned txt =>
          simp only [ho] at hw
          by_cases hs : fl.saveOk = true
          · simp [hs] at hw
            rw [hw.1]
          · simp [hs] at hw
        | raised m => simp only [ho] at hw; exact absurd hw (by simp)
        | noneReturned => simp only [ho] at hw; exact absurd hw (by simp)

/-- Witness for C7: the resolved path of `in/sub/b.txt` under the free
mode's model identifier, produced by an actual successful
`process_file` run. -/
theorem c7_output_path_spec_refinement_witness :
    resolve_output_path ["in", "sub", "b.txt"] ["in"] ["out"] "gemini-1.5-flash-latest" =
      spec_output_path ["in", "sub", "b.txt"] ["in"] ["out"] "gemini-1.5-flash-latest" ∧
    resolve_output_path ["in", "a.txt"] ["in"] ["out"] "gemini-1.5-flash-latest" =
      some ["out", "a_summary_gemini_1_5_flash_latest.txt"] := by
  have h := c7_output_path_spec_refinement ["in", "sub", "b.txt"] ["in"] ["out"]
    "gemini-1.5-flash-latest" cfgFree sampleOkFile ["in"] ["out"]
  exact ⟨h.1, h.2 ["out", "a_summary_gemini_1_5_flash_latest.txt"] "summary" rfl⟩

/-- C10: the orchestrator's summarization call always runs with a cap
of exactly `3` attempts — the source's `Config` carries no retry-count
at all and `process_file` calls `summarize_text(content)` with the
signature default — so no file ever triggers more than 3 calls, and a
file whose calls all fail triggers exactly 3. -/
theorem c10_retry_cap_three (cfg : Config) (fl : FileSpec) (inF outF : List String) :
    (process_file cfg fl inF outF).apiCalls ≤ defaultMaxRetries ∧
    ((∀ i, i < defaultMaxRetries → (callResult (fl.callOutcome i)).isOk = false) →
      (∀ op, resolve_output_path fl.path inF outF cfg.mode_config.model_name = some op →
        (∀ c, read_file_content fl.encOutcome = Except.ok c →
          (process_file cfg fl inF outF).apiCalls = defaultMaxRetries))) := by
  constructor
  · unfold process_file
    cases hr : resolve_output_path fl.path inF outF cfg.mode_config.model_name with
    | none => simp [hr, defaultMaxRetries]
    | some op =>
      simp only [hr]
      cases hc : read_file_content fl.encOutcome with
      | error e => simp [hc, defaultMaxRetries]
      | ok c =>
        simp only [hc]
        have hle := summarizeGo_calls_le fl.callOutcome cfg.mode_config.delay_seconds
          defaultMaxRetries defaultMaxRetries 0
        cases ho : (summarize_text fl.callOutcome cfg.mode_config.delay_seconds
            defaultMaxRetries).outcome with
        | returned txt =>
          simp only [ho]
          by_cases hs : fl.saveOk = true
          · simp only [hs, if_pos]
            exact hle
          · simp only [hs]
            exact hle
        | raised m => simp only [ho]; exact hle
        | noneReturned => simp only [ho]; exact hle
  · intro hfail op hop c hc
    have h := summarizeGo_allFail fl.callOutcome cfg.mode_config.delay_seconds
      defaultMaxRetries defaultMaxRetries 0 (by omega) (by decide)
      (fun i _ hi => hfail i hi)
    unfold process_file
    simp only [hop, hc]
    simp [summarize_text, h]

/-- Witness for C10: a readable file whose remote calls always fail
makes `process_file` issue exactly 3 calls. -/
theorem c10_retry_cap_three_witness :
    (process_file cfgFree sampleBadCallFile ["in"] ["out"]).apiCalls = 3 := by
  have h := (c10_retry_cap_three cfgFree sampleBadCallFile ["in"] ["out"]).2
    (fun i _ => rfl) ["out", "c_summary_gemini_1_5_flash_latest.txt"] rfl "text" rfl
  exact h
